import Mathlib

/-!
# Verification of the university-portal backend (`src/index.js`)

A shallow embedding of the two Express request handlers of the service:

* `GET /api/universities` — a filtered catalog read (`getUniversities`);
* `POST /api/apply` — a validate-then-insert application submission
  (`applyHandler`).

JavaScript numbers are idealized as exact rationals; the value `NaN`,
central to several claims, is modelled explicitly (`JNum := Option ℚ`,
with `none` standing for NaN).  The PostgreSQL store is modelled as an
in-memory pair of tables plus an error-injection record (`StoreBehavior`)
describing which of the two queries of the submission handler throws,
and with which driver error code.
-/

/-- A JavaScript number, idealized as an exact rational; `none` is `NaN`.
(IEEE-754 binary rounding is abstracted away: every claim under study is
about NaN propagation, comparisons and decimal rounding, none of which
depends on binary representation artifacts for the inputs involved.) -/
abbrev JNum := Option ℚ

/-- JavaScript `<` on numbers: any comparison involving NaN is `false`. -/
def jlt : JNum → JNum → Bool
  | some a, some b => decide (a < b)
  | _, _ => false

/-- JavaScript `>=` on numbers: any comparison involving NaN is `false`. -/
def jge : JNum → JNum → Bool
  | some a, some b => decide (b ≤ a)
  | _, _ => false

/-- A JSON value as it can arrive in a request-body field that the code
feeds to `parseFloat`: a string, a number, `null`, or absent. -/
inductive JValue where
  | vstr (s : String)
  | vnum (q : ℚ)
  | vnull
  | vundef
deriving DecidableEq

/-- Decimal digits to a natural number. -/
def digitsToNat (ds : List Char) : ℕ :=
  ds.foldl (fun a c => 10 * a + (c.toNat - 48)) 0

/-- Whitespace characters skipped by JS `parseFloat` and trimmed by the
PostgreSQL numeric-input routine (the common ASCII ones). -/
def jsSpace (c : Char) : Bool :=
  c = ' ' || c = '\t' || c = '\n' || c = '\r'

/-- Split an optional leading sign; `true` means negative. -/
def splitSign : List Char → Bool × List Char
  | '-' :: rest => (true, rest)
  | '+' :: rest => (false, rest)
  | cs => (false, cs)

/-- Split a maximal run of leading decimal digits. -/
def splitDigits (cs : List Char) : List Char × List Char :=
  (cs.takeWhile Char.isDigit, cs.dropWhile Char.isDigit)

/-- Parse an optional exponent part (`e`/`E`, optional sign, digits) at the
front of the input; a malformed exponent contributes `0`, matching the
longest-valid-prefix rule of `parseFloat`. -/
def parseExponent : List Char → ℤ
  | c :: rest =>
      if c = 'e' || c = 'E' then
        let sgn := splitSign rest
        let ds := splitDigits sgn.2
        if ds.1.isEmpty then 0
        else if sgn.1 then -(digitsToNat ds.1 : ℤ) else (digitsToNat ds.1 : ℤ)
      else 0
  | [] => 0

/-- JS `parseFloat` on a character sequence, for the decimal fragment:
leading whitespace, optional sign, digits with an optional fractional part
(at least one digit overall), optional exponent; trailing garbage is
ignored; anything else yields NaN.  (The special literal `Infinity` is
outside the modelled fragment; no input in this development uses it.) -/
def parseFloatChars (cs : List Char) : JNum :=
  let cs0 := cs.dropWhile jsSpace
  let sgn := splitSign cs0
  let ip := splitDigits sgn.2
  let fr : List Char × List Char :=
    match ip.2 with
    | '.' :: rest => splitDigits rest
    | _ => ([], ip.2)
  if ip.1.isEmpty && fr.1.isEmpty then none
  else
    let e : ℤ := parseExponent fr.2
    let mant : ℚ := (digitsToNat ip.1 : ℚ) + (digitsToNat fr.1 : ℚ) / ((10 : ℚ) ^ fr.1.length)
    let v : ℚ := mant * (10 : ℚ) ^ e
    some (if sgn.1 then -v else v)

/-- JS `parseFloat` as applied by the handler to a request-body field.
A number is converted to its decimal string and read back, which is the
identity on the idealized rationals; `null` stringifies to `"null"` and
`undefined` to `"undefined"`, both unparsable, hence NaN. -/
def parseFloat : JValue → JNum
  | .vstr s => parseFloatChars s.data
  | .vnum q => some q
  | .vnull => none
  | .vundef => none

/-- JS `Number.prototype.toFixed(2)` followed by the store's reading of the
resulting string into a numeric column.  On a (finite) number: round to the
integer multiple of `1/100` nearest to the value, ties toward `+∞` (the
"larger `n`" rule of the ECMAScript specification).  On NaN: `toFixed`
produces the string `"NaN"`, which the PostgreSQL numeric type accepts as
its NaN value, modelled again by `none`. -/
def toFixed2 : JNum → JNum
  | none => none
  | some q => some ((⌊q * 100 + 1 / 2⌋ : ℚ) / 100)

/-- A row of the `universities` table.  `min_gpa`/`min_ielts` are nullable
numeric columns: `none` is a stored SQL `NULL` (more generally, any stored
value whose driver string fails `parseFloat`). -/
structure University where
  id : ℕ
  name : String
  country : String
  tuition : ℚ
  degree_level : String
  min_gpa : Option ℚ
  min_ielts : Option ℚ
deriving DecidableEq

/-- A row of the `applications` table, as written by the submission
handler.  The score columns hold what the store read back from the
`toFixed(2)` strings, so they can be NaN (`none`). -/
structure AppRow where
  id : ℕ
  student_name : String
  student_email : String
  university_id : ℕ
  gpa_submitted : JNum
  ielts_submitted : JNum
deriving DecidableEq

/-- The relational store: the two tables and the sequence value backing
the generated `applications.id`. -/
structure DB where
  universities : List University
  applications : List AppRow
  nextAppId : ℕ
deriving DecidableEq

/-- The node-postgres driver hands a `numeric` column to JS as a decimal
string, or as `null` for SQL `NULL`; the handler then applies `parseFloat`.
A stored finite numeric round-trips exactly; `NULL` yields NaN (`parseFloat`
stringifies `null` to the unparsable `"null"`). -/
def pgNumToJNum : Option ℚ → JNum
  | none => none
  | some q => some q

/-- The request body of `POST /api/apply`.  `universityId` is kept as the
row identifier it is compared against; the two score fields are arbitrary
JSON values, as the code pipes them straight into `parseFloat`. -/
structure ApplyRequest where
  studentName : String
  email : String
  universityId : ℕ
  gpa : JValue
  ielts : JValue
deriving DecidableEq

/-- The observable response of the submission handler: HTTP status plus
the JSON payload fields the code writes. -/
inductive ApplyResponse where
  | notFound
  | rejected (message : String)
  | created (applicationId : ℕ)
  | badRequest (message : String)
  | serverError (message : String)
deriving DecidableEq

/-- Which of the submission handler's two store calls throws, and with
which driver-reported error code (`none` inside: an error object without a
`code` property).  `none` outside: the call succeeds. -/
structure StoreBehavior where
  selectErr : Option (Option String)
  insertErr : Option (Option String)
deriving DecidableEq

/-- Both store calls succeed. -/
def noStoreErr : StoreBehavior := { selectErr := none, insertErr := none }

/-- The `catch` block of the submission handler: PostgreSQL error code
`22003` (numeric value out of range) becomes a 400, everything else a
generic 500. -/
def applyCatch (code : Option String) : ApplyResponse :=
  if code = some "22003" then
    ApplyResponse.badRequest "Score value too high for database limits."
  else
    ApplyResponse.serverError "Database error during submission."

/-- The 403 message built by the handler; a fixed template around the
university name. -/
def rejectionMessage (name : String) : String :=
  "Application Rejected: Your scores do not meet the minimum requirements for "
    ++ name ++ "."

/-- The `POST /api/apply` handler: look the university up by id (404 when
absent), `parseFloat` both scores, reject with 403 when either score
compares `<` against its threshold, otherwise `toFixed(2)` both scores and
insert the application row, returning the generated id with 201.  Errors
thrown by either store call fall to `applyCatch`.  Returns the response
together with the store state after the request. -/
def applyHandler (db : DB) (beh : StoreBehavior) (req : ApplyRequest) :
    ApplyResponse × DB :=
  match beh.selectErr with
  | some code => (applyCatch code, db)
  | none =>
    match db.universities.find? (fun u => u.id == req.universityId) with
    | none => (ApplyResponse.notFound, db)
    | some u =>
      let numGPA := parseFloat req.gpa
      let numIELTS := parseFloat req.ielts
      if jlt numGPA (pgNumToJNum u.min_gpa) || jlt numIELTS (pgNumToJNum u.min_ielts) then
        (ApplyResponse.rejected (rejectionMessage u.name), db)
      else
        let safeGPA := toFixed2 numGPA
        let safeIELTS := toFixed2 numIELTS
        match beh.insertErr with
        | some code => (applyCatch code, db)
        | none =>
          let row : AppRow :=
            { id := db.nextAppId
              student_name := req.studentName
              student_email := req.email
              university_id := req.universityId
              gpa_submitted := safeGPA
              ielts_submitted := safeIELTS }
          (ApplyResponse.created db.nextAppId,
            { db with
                applications := db.applications ++ [row]
                nextAppId := db.nextAppId + 1 })

mutual

/-- SQL `ILIKE` pattern matching against a full string: `%` matches any
(possibly empty) sequence, `_` matches exactly one character, the default
escape character backslash strips the following pattern character of any
special meaning (it then matches itself, still case-insensitively), and
any other pattern character matches itself case-insensitively.  A pattern
ending in a lone escape character is an error in PostgreSQL; it cannot
arise from the `%...%` patterns the handler builds (their last character
is `%`, so every backslash has a successor) and is modelled as matching
nothing. -/
def ilike : List Char → List Char → Bool
  | [], ts => ts.isEmpty
  | p :: ps, ts =>
      if p = '\\' then ilikeEsc ps ts
      else if p = '%' then
        ilike ps ts ||
          (match ts with
            | [] => false
            | _ :: ts2 => ilike (p :: ps) ts2)
      else
        match ts with
        | [] => false
        | t :: ts2 => (if p = '_' then true else p.toLower = t.toLower) && ilike ps ts2
termination_by ps ts => (ts.length, ps.length + 1)

/-- Continuation of `ilike` after an escape character: the next pattern
character is matched literally (still case-insensitively).  The `[]` case
is the pattern that ends in a lone escape character, an error in
PostgreSQL; see the comment on `ilike`. -/
def ilikeEsc : List Char → List Char → Bool
  | [], _ => false
  | _ :: _, [] => false
  | q :: ps2, t :: ts2 => (q.toLower = t.toLower) && ilike ps2 ts2
termination_by ps ts => (ts.length, ps.length)

end

/-- Case-insensitive "starts with". -/
def isPrefixCI : List Char → List Char → Bool
  | [], _ => true
  | _ :: _, [] => false
  | a :: as, b :: bs => (a.toLower = b.toLower) && isPrefixCI as bs

/-- Case-insensitive substring containment — the relation the specification
words use ("contains the filter string as a case-insensitive substring"). -/
def substrCI (needle : List Char) : List Char → Bool
  | [] => needle.isEmpty
  | t :: ts => isPrefixCI needle (t :: ts) || substrCI needle ts

/-- The query string of `GET /api/universities`: each parameter is either
absent or a string. -/
structure CatalogQuery where
  maxFee : Option String
  country : Option String
  degree : Option String
deriving DecidableEq

/-- PostgreSQL's reading of a text parameter compared against a `numeric`
column: optional surrounding whitespace, optional sign, digits with an
optional fractional part (at least one digit), optional well-formed
exponent; the whole input must be consumed, otherwise the statement fails
with an invalid-input error (`none`).  (The special literal `NaN` is
outside the modelled fragment; no input in this development uses it.) -/
def pgCastNumeric (s : String) : Option ℚ :=
  let cs0 := s.data.dropWhile jsSpace
  let sgn := splitSign cs0
  let ip := splitDigits sgn.2
  let fr : List Char × List Char :=
    match ip.2 with
    | '.' :: rest => splitDigits rest
    | _ => ([], ip.2)
  if ip.1.isEmpty && fr.1.isEmpty then none
  else
    let expPart : Option (ℤ × List Char) :=
      match fr.2 with
      | c :: r2 =>
        if c = 'e' || c = 'E' then
          let sgn2 := splitSign r2
          let ds2 := splitDigits sgn2.2
          if ds2.1.isEmpty then none
          else
            some ((if sgn2.1 then -(digitsToNat ds2.1 : ℤ) else (digitsToNat ds2.1 : ℤ)), ds2.2)
        else some (0, fr.2)
      | [] => some (0, [])
    match expPart with
    | none => none
    | some (e, tail) =>
      if (tail.dropWhile jsSpace).isEmpty then
        let mant : ℚ := (digitsToNat ip.1 : ℚ) + (digitsToNat fr.1 : ℚ) / ((10 : ℚ) ^ fr.1.length)
        some ((if sgn.1 then -mant else mant) * (10 : ℚ) ^ e)
      else none

/-- The value the `tuition <= $1` comparison effectively uses: the code
passes `maxFee || 100000`, so the default `100000` is substituted exactly
when the parameter is absent or the empty string (the only falsy string);
any other string reaches the store, where a failed numeric cast aborts
the query (`none`). -/
def effectiveMaxFee : Option String → Option ℚ
  | none => some 100000
  | some s => if s = "" then some 100000 else pgCastNumeric s

/-- The `WHERE` clause of the catalog query, for a successfully cast fee:
`tuition <= $1 AND country ILIKE $2 AND ($3 = '' OR degree_level = $3)`
with `$2 = '%' ++ country ++ '%'`. -/
def matchesFilters (fee : ℚ) (countryFilter degree : String) (u : University) : Bool :=
  decide (u.tuition ≤ fee)
    && ilike ('%' :: (countryFilter.data ++ ['%'])) u.country.data
    && ((degree == "") || (u.degree_level == degree))

/-- `ORDER BY name ASC` comparison: lexicographic on code points (the
collation details of the store are abstracted to this total order). -/
def charListLe : List Char → List Char → Bool
  | [], _ => true
  | _ :: _, [] => false
  | a :: as, b :: bs =>
      if a.toNat = b.toNat then charListLe as bs else decide (a.toNat < b.toNat)

/-- The `ORDER BY name ASC` order on university rows, as a relation. -/
def nameLe (u v : University) : Prop := charListLe u.name.data v.name.data = true

instance : DecidableRel nameLe := fun _ _ =>
  inferInstanceAs (Decidable (_ = true))

/-- The `GET /api/universities` handler: evaluate the parameterized query
against the `universities` table and return the matching rows ordered by
name (`some rows`), or fail as the catch-all 500 does when the fee
parameter does not cast to a numeric (`none`). -/
def getUniversities (db : DB) (q : CatalogQuery) : Option (List University) :=
  match effectiveMaxFee q.maxFee with
  | none => none
  | some fee =>
      some (List.insertionSort nameLe
        (db.universities.filter (matchesFilters fee (q.country.getD "") (q.degree.getD ""))))

/-! ## Concrete fixtures

A small set of concrete rows and requests used by the closed
counterexample and witness theorems below. -/

/-- A university with ordinary thresholds (`min_gpa = 3`, `min_ielts = 6.5`). -/
def uniAlpha : University :=
  { id := 1, name := "Alpha University", country := "Testland", tuition := 10000,
    degree_level := "Master", min_gpa := some 3, min_ielts := some (13 / 2) }

/-- A store holding only `uniAlpha` and no applications. -/
def db1 : DB := { universities := [uniAlpha], applications := [], nextAppId := 1 }

/-- A submission whose `gpa` does not parse (`"abc"`) but whose `ielts`
(`7`) clears the 6.5 threshold. -/
def reqNaN : ApplyRequest :=
  { studentName := "Sam", email := "sam@example.com", universityId := 1,
    gpa := JValue.vstr "abc", ielts := JValue.vstr "7" }

/-- A submission in which neither score parses. -/
def reqBothNaN : ApplyRequest :=
  { studentName := "Lee", email := "lee@example.com", universityId := 1,
    gpa := JValue.vstr "abc", ielts := JValue.vnull }

/-- A submission clearing both thresholds (`3.5` and `7`). -/
def reqOK : ApplyRequest :=
  { studentName := "Ada", email := "ada@example.com", universityId := 1,
    gpa := JValue.vstr "3.5", ielts := JValue.vstr "7" }

/-- A submission with `gpa = 2.9` below the `3` threshold. -/
def reqLow : ApplyRequest :=
  { studentName := "Bo", email := "bo@example.com", universityId := 1,
    gpa := JValue.vstr "2.9", ielts := JValue.vstr "7" }

/-- A university whose `min_gpa` is `NULL` but whose `min_ielts` is `6`. -/
def uniNull : University :=
  { id := 2, name := "Null State University", country := "Testland", tuition := 8000,
    degree_level := "Bachelor", min_gpa := none, min_ielts := some 6 }

/-- A store holding only `uniNull`. -/
def dbNull : DB := { universities := [uniNull], applications := [], nextAppId := 5 }

/-- A submission to `uniNull` with `ielts = 5` below its `6` threshold. -/
def reqNull : ApplyRequest :=
  { studentName := "Cy", email := "cy@example.com", universityId := 2,
    gpa := JValue.vstr "4", ielts := JValue.vstr "5" }

/-- A university with both thresholds `NULL`. -/
def uniNullBoth : University :=
  { id := 4, name := "Open Admission College", country := "Testland", tuition := 7000,
    degree_level := "Bachelor", min_gpa := none, min_ielts := none }

/-- A store holding only `uniNullBoth`. -/
def dbNullBoth : DB := { universities := [uniNullBoth], applications := [], nextAppId := 9 }

/-- A submission with very low (but parsable) scores. -/
def reqTiny : ApplyRequest :=
  { studentName := "Di", email := "di@example.com", universityId := 4,
    gpa := JValue.vstr "1", ielts := JValue.vstr "1" }

/-- A university whose country is the two-letter string `UK`. -/
def uniUK : University :=
  { id := 3, name := "Kings College", country := "UK", tuition := 500,
    degree_level := "Master", min_gpa := some 3, min_ielts := some 6 }

/-- A store holding only `uniUK`. -/
def dbUK : DB := { universities := [uniUK], applications := [], nextAppId := 1 }

/-- The application row the handler writes for `reqNaN` against `db1`:
note the NaN score stored in `gpa_submitted`. -/
def rowNaN : AppRow :=
  { id := 1, student_name := "Sam", student_email := "sam@example.com",
    university_id := 1, gpa_submitted := none, ielts_submitted := some 7 }

/-- The store after the `reqNaN` submission. -/
def db1AfterNaN : DB :=
  { universities := [uniAlpha], applications := [rowNaN], nextAppId := 2 }

/-! ## Pattern-matching lemmas for the catalog query -/

/-- A filter fragment containing no LIKE-special characters: neither the
wildcards `%` and `_` nor the default escape character backslash. -/
def wildcardFree (cs : List Char) : Prop :=
  ∀ c ∈ cs, c ≠ '%' ∧ c ≠ '_' ∧ c ≠ '\\'

/-- The pattern `%` matches every string. -/
theorem ilike_percent_any (ts : List Char) : ilike ['%'] ts = true := by
  induction ts with
  | nil => simp [ilike]
  | cons t ts ih => simp [ilike, ih]

theorem isPrefixCI_nil_right (lit : List Char) : isPrefixCI lit [] = lit.isEmpty := by
  cases lit <;> simp [isPrefixCI]

/-- A wildcard-free fragment followed by `%` matches exactly the strings it
starts (case-insensitively). -/
theorem ilike_lit_percent (lit : List Char) (h : wildcardFree lit) (ts : List Char) :
    ilike (lit ++ ['%']) ts = isPrefixCI lit ts := by
  induction lit generalizing ts with
  | nil => simp [isPrefixCI, ilike_percent_any]
  | cons p lit ih =>
      obtain ⟨hp1, hp2, hp0⟩ := h p (List.mem_cons_self _ _)
      have h2 : wildcardFree lit := fun c hc => h c (List.mem_cons_of_mem _ hc)
      cases ts with
      | nil => simp [ilike, isPrefixCI, hp1, hp0]
      | cons t ts =>
          simp [ilike, isPrefixCI, hp1, hp2, hp0, ih h2]

/-- For a wildcard-free filter, the pattern the code builds (`%` on both
sides) coincides with case-insensitive substring containment — the relation
the specification describes. -/
theorem ilike_substr (lit : List Char) (h : wildcardFree lit) (ts : List Char) :
    ilike ('%' :: (lit ++ ['%'])) ts = substrCI lit ts := by
  induction ts with
  | nil =>
      simp [ilike, substrCI, ilike_lit_percent lit h, isPrefixCI_nil_right]
  | cons t ts ih =>
      simp [ilike, substrCI, ilike_lit_percent lit h, ih]

theorem substrCI_nil (ts : List Char) : substrCI [] ts = true := by
  cases ts <;> simp [substrCI, isPrefixCI]

theorem isPrefixCI_self_append (needle post : List Char) :
    isPrefixCI needle (needle ++ post) = true := by
  induction needle with
  | nil => simp [isPrefixCI]
  | cons a as ih => simp [isPrefixCI, ih]

/-- A string occurs as a substring of anything built around it. -/
theorem substrCI_sandwich (pre needle post : List Char) :
    substrCI needle (pre ++ (needle ++ post)) = true := by
  induction pre with
  | nil =>
      cases needle with
      | nil => simp [substrCI_nil]
      | cons n ns =>
          have h := isPrefixCI_self_append (n :: ns) post
          simp only [List.cons_append] at h
          simp [substrCI, h]
  | cons p pre ih => simp [substrCI, ih]

/-! ## The `ORDER BY name` comparison is a total preorder -/

theorem charListLe_total (as bs : List Char) :
    charListLe as bs = true ∨ charListLe bs as = true := by
  induction as generalizing bs with
  | nil => left; simp [charListLe]
  | cons a as ih =>
      cases bs with
      | nil => right; simp [charListLe]
      | cons b bs =>
          by_cases hab : a.toNat = b.toNat
          · rcases ih bs with h | h
            · left; simp [charListLe, hab, h]
            · right; simp [charListLe, hab.symm, h]
          · by_cases hlt : a.toNat < b.toNat
            · left; simp [charListLe, hab, hlt]
            · right
              have hba : b.toNat ≠ a.toNat := fun h => hab h.symm
              have : b.toNat < a.toNat := by omega
              simp [charListLe, hba, this]

theorem charListLe_trans (as bs cs : List Char)
    (h1 : charListLe as bs = true) (h2 : charListLe bs cs = true) :
    charListLe as cs = true := by
  induction as generalizing bs cs with
  | nil => simp [charListLe]
  | cons a as ih =>
      cases bs with
      | nil => simp [charListLe] at h1
      | cons b bs =>
          cases cs with
          | nil => simp [charListLe] at h2
          | cons c cs =>
              simp only [charListLe] at h1 h2 ⊢
              by_cases hab : a.toNat = b.toNat
              · rw [if_pos hab] at h1
                by_cases hbc : b.toNat = c.toNat
                · rw [if_pos hbc] at h2
                  rw [if_pos (hab.trans hbc)]
                  exact ih bs cs h1 h2
                · rw [if_neg hbc] at h2
                  simp only [decide_eq_true_eq] at h2
                  have hac : a.toNat ≠ c.toNat := by omega
                  rw [if_neg hac]
                  simp only [decide_eq_true_eq]; omega
              · rw [if_neg hab] at h1
                simp only [decide_eq_true_eq] at h1
                by_cases hbc : b.toNat = c.toNat
                · have hac : a.toNat ≠ c.toNat := by omega
                  rw [if_neg hac]
                  simp only [decide_eq_true_eq]; omega
                · rw [if_neg hbc] at h2
                  simp only [decide_eq_true_eq] at h2
                  have hac : a.toNat ≠ c.toNat := by omega
                  rw [if_neg hac]
                  simp only [decide_eq_true_eq]; omega

instance : IsTotal University nameLe :=
  ⟨fun u v => charListLe_total u.name.data v.name.data⟩

instance : IsTrans University nameLe :=
  ⟨fun u v w => charListLe_trans u.name.data v.name.data w.name.data⟩

/-! ## Helper lemmas about the submission handler -/

theorem applyCatch_ne_created (code : Option String) (i : ℕ) :
    applyCatch code ≠ ApplyResponse.created i := by
  unfold applyCatch; split <;> simp

theorem applyCatch_ne_rejected (code : Option String) (m : String) :
    applyCatch code ≠ ApplyResponse.rejected m := by
  unfold applyCatch; split <;> simp

theorem jlt_none_right (x : JNum) : jlt x none = false := by cases x <;> rfl

/-- Exhaustive description of how the submission handler changes the store:
either the response is 201 and exactly one row was appended, or the
response is not 201 and the store is untouched. -/
theorem applyHandler_state (db : DB) (beh : StoreBehavior) (req : ApplyRequest) :
    ((∃ i, (applyHandler db beh req).1 = ApplyResponse.created i) ∧
      (∃ row, (applyHandler db beh req).2.applications = db.applications ++ [row]) ∧
      (applyHandler db beh req).2.applications.length = db.applications.length + 1) ∨
    ((∀ i, (applyHandler db beh req).1 ≠ ApplyResponse.created i) ∧
      (applyHandler db beh req).2 = db) := by
  obtain ⟨sel, ins⟩ := beh
  unfold applyHandler
  cases sel with
  | some code => right; exact ⟨fun i => applyCatch_ne_created code i, rfl⟩
  | none =>
      cases hfind : db.universities.find? (fun u => u.id == req.universityId) with
      | none => right; simp
      | some u =>
          by_cases hrej :
              (jlt (parseFloat req.gpa) (pgNumToJNum u.min_gpa) ||
                jlt (parseFloat req.ielts) (pgNumToJNum u.min_ielts)) = true
          · right; simp [hrej]
          · cases ins with
            | some code =>
                right
                simp only [Bool.not_eq_true] at hrej
                simp [hrej]
                exact fun i => applyCatch_ne_created code i
            | none =>
                left
                simp only [Bool.not_eq_true] at hrej
                simp [hrej]

/-- `toFixed(2)` of a number is an integer number of hundredths within
half a hundredth of the original value. -/
theorem toFixed2_round (q : ℚ) :
    ∃ n : ℤ, toFixed2 (some q) = some ((n : ℚ) / 100) ∧ |(n : ℚ) / 100 - q| ≤ 1 / 200 := by
  refine ⟨⌊q * 100 + 1 / 2⌋, rfl, ?_⟩
  have h1 := Int.floor_le (q * 100 + 1 / 2)
  have h2 := Int.lt_floor_add_one (q * 100 + 1 / 2)
  rw [abs_le]
  constructor <;> linarith

/-- The pattern built from an empty country filter matches every string. -/
theorem ilike_percent_percent (ts : List Char) : ilike ['%', '%'] ts = true := by
  have h := ilike_substr [] (by intro c hc; simp at hc) ts
  simpa [substrCI_nil] using h

/-- The escape character stays live in the spliced pattern: the filter
`a\b` — which contains neither `%` nor `_`, but is not `wildcardFree`
because of the backslash — builds the pattern `%a\b%`, which matches a
country containing `ab` even though that country does not contain the
filter as a substring. -/
theorem ilike_escape_literal :
    ilike ('%' :: ("a\\b".data ++ ['%'])) "xaby".data = true ∧
    substrCI "a\\b".data "xaby".data = false ∧
    ¬ wildcardFree "a\\b".data := by
  refine ⟨by simp [ilike, ilikeEsc], by decide, ?_⟩
  intro h
  exact absurd rfl (h '\\' (by decide)).2.2

/-! ## The claims -/

/-- C1, counterexample.  The claim states that a submission whose `gpa` or
`ielts` fails to parse is rejected by the threshold comparison.  In the
code the comparison guards the *rejection* branch (`numGPA < min ||
numIELTS < min`), and a NaN compares `false`, so an unparsable score can
never trigger the rejection: the submission `reqNaN` (gpa `"abc"`, ielts
`"7"`) against `uniAlpha` is *not* rejected — it reaches the insert step
and creates a row whose `gpa_submitted` is NaN. -/
theorem C1_counterexample :
    parseFloat reqNaN.gpa = none ∧
    applyHandler db1 noStoreErr reqNaN = (ApplyResponse.created 1, db1AfterNaN) := by
  constructor
  · simp [reqNaN, parseFloat, parseFloatChars, splitSign, splitDigits, jsSpace]
  · simp [applyHandler, noStoreErr, db1, uniAlpha, reqNaN, rowNaN, db1AfterNaN,
      List.find?, parseFloat, parseFloatChars, splitSign, splitDigits, jsSpace,
      parseExponent, digitsToNat, jlt, pgNumToJNum, toFixed2]
    norm_num [Int.floor_eq_iff]

/-- C1, amended.  A score that fails to parse never triggers the
"requirements not met" rejection; parsing failure is fail-open, not
fail-closed: when both scores parse to NaN (and the university exists),
the handler cannot return the 403 rejection, and when the insert succeeds
it returns 201 having appended a row. -/
theorem C1_theorem (db : DB) (beh : StoreBehavior) (req : ApplyRequest) (u : University)
    (hsel : beh.selectErr = none)
    (hfind : db.universities.find? (fun v => v.id == req.universityId) = some u)
    (hg : parseFloat req.gpa = none) (hi : parseFloat req.ielts = none) :
    (∀ m, (applyHandler db beh req).1 ≠ ApplyResponse.rejected m) ∧
    (beh.insertErr = none →
      (applyHandler db beh req).1 = ApplyResponse.created db.nextAppId ∧
      (applyHandler db beh req).2.applications.length = db.applications.length + 1) := by
  obtain ⟨sel, ins⟩ := beh
  cases hsel
  simp only [applyHandler, hfind, hg, hi, jlt]
  constructor
  · intro m
    cases ins with
    | some code => exact applyCatch_ne_rejected code m
    | none => simp
  · rintro rfl
    simp

/-- C1, witness: `C1_theorem` applied to the concrete store `db1` and the
doubly-unparsable submission `reqBothNaN`. -/
theorem C1_witness :
    (applyHandler db1 noStoreErr reqBothNaN).1 ≠
      ApplyResponse.rejected (rejectionMessage uniAlpha.name) ∧
    (applyHandler db1 noStoreErr reqBothNaN).1 = ApplyResponse.created db1.nextAppId ∧
    (applyHandler db1 noStoreErr reqBothNaN).2.applications.length =
      db1.applications.length + 1 := by
  obtain ⟨h1, h2⟩ := C1_theorem db1 noStoreErr reqBothNaN uniAlpha rfl
    (by simp [db1, uniAlpha, reqBothNaN, List.find?])
    (by simp [reqBothNaN, parseFloat, parseFloatChars, splitSign, splitDigits, jsSpace])
    rfl
  obtain ⟨h3, h4⟩ := h2 rfl
  exact ⟨h1 _, h3, h4⟩

/-- C2, counterexample.  The claim's invariant requires both submitted
scores to be `≥` the thresholds whenever a row is inserted.  The `reqNaN`
submission inserts a row (the table grows by one) although its parsed
`gpa` is NaN, which is *not* `≥ min_gpa` under JS comparison. -/
theorem C2_counterexample :
    jge (parseFloat reqNaN.gpa) (pgNumToJNum uniAlpha.min_gpa) = false ∧
    (applyHandler db1 noStoreErr reqNaN).2.applications.length =
      db1.applications.length + 1 := by
  constructor
  · simp [reqNaN, uniAlpha, parseFloat, parseFloatChars, splitSign, splitDigits, jsSpace,
      jge, pgNumToJNum]
  · simp [applyHandler, noStoreErr, db1, uniAlpha, reqNaN, List.find?, parseFloat,
      parseFloatChars, splitSign, splitDigits, jsSpace, parseExponent, digitsToNat,
      jlt, pgNumToJNum, toFixed2]
    norm_num

/-- C2, amended.  A row is inserted only if the referenced university
exists and *neither* parsed score compares strictly below its threshold
under JS `<` — which coincides with the claimed `≥` only when the scores
and thresholds are all non-NaN. -/
theorem C2_theorem (db : DB) (beh : StoreBehavior) (req : ApplyRequest)
    (h : (applyHandler db beh req).2.applications ≠ db.applications) :
    ∃ u, db.universities.find? (fun v => v.id == req.universityId) = some u ∧
      jlt (parseFloat req.gpa) (pgNumToJNum u.min_gpa) = false ∧
      jlt (parseFloat req.ielts) (pgNumToJNum u.min_ielts) = false := by
  obtain ⟨sel, ins⟩ := beh
  simp only [applyHandler] at h
  cases sel with
  | some code => simp at h
  | none =>
      cases hfind : db.universities.find? (fun u => u.id == req.universityId) with
      | none => rw [hfind] at h; simp at h
      | some u =>
          rw [hfind] at h
          simp only [] at h
          refine ⟨u, rfl, ?_⟩
          by_cases hrej :
              (jlt (parseFloat req.gpa) (pgNumToJNum u.min_gpa) ||
                jlt (parseFloat req.ielts) (pgNumToJNum u.min_ielts)) = true
          · rw [if_pos hrej] at h; simp at h
          · simp only [Bool.or_eq_true] at hrej
            push_neg at hrej
            simp only [Bool.not_eq_true] at hrej
            exact hrej

/-- C2, witness: `C2_theorem` applied to the store-changing `reqNaN`
submission. -/
theorem C2_witness :
    ∃ u, db1.universities.find? (fun v => v.id == reqNaN.universityId) = some u ∧
      jlt (parseFloat reqNaN.gpa) (pgNumToJNum u.min_gpa) = false ∧
      jlt (parseFloat reqNaN.ielts) (pgNumToJNum u.min_ielts) = false :=
  C2_theorem db1 noStoreErr reqNaN (by
    simp [applyHandler, noStoreErr, db1, uniAlpha, reqNaN, List.find?, parseFloat,
      parseFloatChars, splitSign, splitDigits, jsSpace, parseExponent, digitsToNat,
      jlt, pgNumToJNum, toFixed2]
    norm_num)

/-- C3.  Exactly one row is appended to the `applications` table when the
handler answers 201, and the store is completely unchanged on every other
outcome (404, 403, 400, 500). -/
theorem C3_theorem (db : DB) (beh : StoreBehavior) (req : ApplyRequest) :
    (∀ i, (applyHandler db beh req).1 = ApplyResponse.created i →
      (applyHandler db beh req).2.applications.length = db.applications.length + 1) ∧
    ((∀ i, (applyHandler db beh req).1 ≠ ApplyResponse.created i) →
      (applyHandler db beh req).2 = db) := by
  rcases applyHandler_state db beh req with ⟨⟨i, hi⟩, _, hlen⟩ | ⟨hnc, hdb⟩
  · exact ⟨fun _ _ => hlen, fun h => absurd hi (h i)⟩
  · exact ⟨fun i hi => absurd hi (hnc i), fun _ => hdb⟩

/-- C3, witness: `C3_theorem` applied to a successful submission (table
grows by one) and to a rejected one (store unchanged). -/
theorem C3_witness :
    (applyHandler db1 noStoreErr reqOK).2.applications.length =
      db1.applications.length + 1 ∧
    (applyHandler db1 noStoreErr reqLow).2 = db1 := by
  have hOK : (applyHandler db1 noStoreErr reqOK).1 = ApplyResponse.created 1 := by
    simp [applyHandler, noStoreErr, db1, uniAlpha, reqOK, List.find?, parseFloat,
      parseFloatChars, splitSign, splitDigits, jsSpace, parseExponent, digitsToNat,
      jlt, pgNumToJNum, toFixed2]
    norm_num
  have hLow : (applyHandler db1 noStoreErr reqLow).1 =
      ApplyResponse.rejected (rejectionMessage uniAlpha.name) := by
    simp [applyHandler, noStoreErr, db1, uniAlpha, reqLow, List.find?, parseFloat,
      parseFloatChars, splitSign, splitDigits, jsSpace, parseExponent, digitsToNat,
      jlt, pgNumToJNum]
    norm_num [rejectionMessage, uniAlpha]
  exact ⟨(C3_theorem db1 noStoreErr reqOK).1 1 hOK,
    (C3_theorem db1 noStoreErr reqLow).2
      (fun i hi => by rw [hLow] at hi; exact ApplyResponse.noConfusion hi)⟩

/-- C4, counterexample.  The claim states every returned record's country
contains the filter as a case-insensitive substring.  The filter is
spliced into an `ILIKE` pattern, so its wildcard characters stay active:
with filter `"U_"`, the university whose country is `"UK"` is returned
(`_` matches the `K`), yet `"UK"` does not contain the substring `"U_"`. -/
theorem C4_counterexample :
    getUniversities dbUK { maxFee := none, country := some "U_", degree := none } =
      some [uniUK] ∧
    substrCI "U_".data uniUK.country.data = false := by
  constructor
  · have hm : matchesFilters 100000 "U_" "" uniUK = true := by
      simp [matchesFilters, uniUK, ilike]
      norm_num
    simp [getUniversities, effectiveMaxFee, dbUK, List.filter, hm,
      List.insertionSort, List.orderedInsert]
  · decide

/-- C4, amended.  Every returned record satisfies the fee bound and the
degree equality as claimed, and its country matches the `ILIKE` pattern
`%filter%` case-insensitively; this coincides with the claimed substring
containment whenever the filter contains no LIKE-special character — the
wildcards `%` and `_` and the default escape character backslash
(`ilike_escape_literal` shows the escape alone already breaks the
substring reading). -/
theorem C4_theorem (db : DB) (q : CatalogQuery) (rows : List University)
    (h : getUniversities db q = some rows) (u : University) (hu : u ∈ rows) :
    ∃ fee, effectiveMaxFee q.maxFee = some fee ∧
      u.tuition ≤ fee ∧
      ilike ('%' :: ((q.country.getD "").data ++ ['%'])) u.country.data = true ∧
      (wildcardFree (q.country.getD "").data →
        substrCI (q.country.getD "").data u.country.data = true) ∧
      (q.degree.getD "" ≠ "" → u.degree_level = q.degree.getD "") := by
  unfold getUniversities at h
  cases hfee : effectiveMaxFee q.maxFee with
  | none => rw [hfee] at h; simp at h
  | some fee =>
      rw [hfee] at h
      simp only [Option.some_inj] at h
      subst h
      have hmem := (List.perm_insertionSort nameLe _).mem_iff.1 hu
      rw [List.mem_filter] at hmem
      obtain ⟨_, hmatch⟩ := hmem
      simp only [matchesFilters, Bool.and_eq_true, decide_eq_true_eq, Bool.or_eq_true,
        beq_iff_eq] at hmatch
      obtain ⟨⟨ht, hil⟩, hdeg⟩ := hmatch
      refine ⟨fee, rfl, ht, hil, ?_, ?_⟩
      · intro hwf; rw [← ilike_substr _ hwf]; exact hil
      · intro hne
        rcases hdeg with hd | hd
        · exact absurd hd hne
        · exact hd

/-- C4, witness: `C4_theorem` applied to `dbUK` with the wildcard-free
country filter `"u"`, whose only returned record is `uniUK`. -/
theorem C4_witness :
    ∃ fee, effectiveMaxFee none = some fee ∧
      uniUK.tuition ≤ fee ∧
      ilike ('%' :: ("u".data ++ ['%'])) uniUK.country.data = true ∧
      (wildcardFree "u".data → substrCI "u".data uniUK.country.data = true) ∧
      (("" : String) ≠ "" → uniUK.degree_level = "") :=
  C4_theorem dbUK { maxFee := none, country := some "u", degree := none } [uniUK]
    (by
      have hm : matchesFilters 100000 "u" "" uniUK = true := by
        simp [matchesFilters, uniUK, ilike]
        norm_num
      simp [getUniversities, effectiveMaxFee, dbUK, List.filter, hm,
        List.insertionSort, List.orderedInsert])
    uniUK (by simp)

/-- C5, counterexample.  The claim states a non-numeric `maxFee` is
replaced by the default ceiling.  The code only substitutes the default
for a *falsy* value (absent or empty): the non-numeric string `"abc"` is
passed to the store, whose numeric cast fails and aborts the query — a
500 error, not the default-ceiling result. -/
theorem C5_counterexample :
    getUniversities dbUK { maxFee := some "abc", country := none, degree := none } = none ∧
    getUniversities dbUK { maxFee := none, country := none, degree := none } =
      some [uniUK] := by
  constructor
  · simp [getUniversities, effectiveMaxFee, pgCastNumeric, splitSign, splitDigits, jsSpace]
  · have hm : matchesFilters 100000 "" "" uniUK = true := by
      simp [matchesFilters, uniUK, ilike_percent_percent]
      norm_num
    simp [getUniversities, effectiveMaxFee, dbUK, List.filter, hm,
      List.insertionSort, List.orderedInsert]

/-- C5, amended.  The default ceiling `100000` is substituted exactly when
`maxFee` is absent or the empty string; with all three filters omitted the
result is precisely the universities with `tuition ≤ 100000`. -/
theorem C5_theorem (db : DB) :
    (∀ c d, getUniversities db { maxFee := some "", country := c, degree := d } =
      getUniversities db { maxFee := none, country := c, degree := d }) ∧
    ∃ rows, getUniversities db { maxFee := none, country := none, degree := none } = some rows ∧
      ∀ u, u ∈ rows ↔ u ∈ db.universities ∧ u.tuition ≤ 100000 := by
  constructor
  · intro c d; rfl
  · refine ⟨_, rfl, ?_⟩
    intro u
    rw [(List.perm_insertionSort nameLe _).mem_iff, List.mem_filter]
    simp [matchesFilters, ilike_percent_percent]

/-- C5, witness: `C5_theorem` applied to the concrete store `dbUK`. -/
theorem C5_witness :
    getUniversities dbUK { maxFee := some "", country := none, degree := none } =
      getUniversities dbUK { maxFee := none, country := none, degree := none } :=
  (C5_theorem dbUK).1 none none

/-- C6, counterexample.  The claim states the 403 message names both the
university and its thresholds.  The message the code builds contains the
university name but no digits at all, so it cannot name the numeric
thresholds (`3` and `6.5` for `uniAlpha`). -/
theorem C6_counterexample :
    (applyHandler db1 noStoreErr reqLow).1 =
      ApplyResponse.rejected (rejectionMessage "Alpha University") ∧
    (rejectionMessage "Alpha University").data.all (fun c => !c.isDigit) = true := by
  constructor
  · simp [applyHandler, noStoreErr, db1, uniAlpha, reqLow, List.find?, parseFloat,
      parseFloatChars, splitSign, splitDigits, jsSpace, parseExponent, digitsToNat,
      jlt, pgNumToJNum]
    norm_num [rejectionMessage]
  · decide

/-- C6, amended.  Whenever either parsed score compares strictly below its
threshold, the handler answers the 403 rejection whose message is the
fixed template around the university name — it names the university (the
name occurs in the message) but not the thresholds. -/
theorem C6_theorem (db : DB) (beh : StoreBehavior) (req : ApplyRequest) (u : University)
    (hsel : beh.selectErr = none)
    (hfind : db.universities.find? (fun v => v.id == req.universityId) = some u)
    (hrej : (jlt (parseFloat req.gpa) (pgNumToJNum u.min_gpa) ||
        jlt (parseFloat req.ielts) (pgNumToJNum u.min_ielts)) = true) :
    applyHandler db beh req = (ApplyResponse.rejected (rejectionMessage u.name), db) ∧
    substrCI u.name.data (rejectionMessage u.name).data = true := by
  obtain ⟨sel, ins⟩ := beh
  cases hsel
  constructor
  · simp [applyHandler, hfind, hrej]
  · have hdata : (rejectionMessage u.name).data =
        ("Application Rejected: Your scores do not meet the minimum requirements for ").data
          ++ (u.name.data ++ ".".data) := by
      simp [rejectionMessage]
    rw [hdata]
    exact substrCI_sandwich _ _ _

/-- C6, witness: `C6_theorem` applied to the below-threshold submission
`reqLow` against `uniAlpha`. -/
theorem C6_witness :
    applyHandler db1 noStoreErr reqLow =
      (ApplyResponse.rejected (rejectionMessage uniAlpha.name), db1) ∧
    substrCI uniAlpha.name.data (rejectionMessage uniAlpha.name).data = true :=
  C6_theorem db1 noStoreErr reqLow uniAlpha rfl
    (by simp [db1, uniAlpha, reqLow, List.find?])
    (by
      simp [reqLow, uniAlpha, parseFloat, parseFloatChars, splitSign, splitDigits,
        jsSpace, parseExponent, digitsToNat, jlt, pgNumToJNum]
      norm_num)

/-- C7.  A submission whose parsed scores meet or exceed both (numeric)
thresholds, and whose insert the store accepts, appends exactly the one
row carrying the `toFixed(2)`-rounded scores and answers 201 with the
generated identifier; the stored scores are integer hundredths within half
a hundredth of the submitted values. -/
theorem C7_theorem (db : DB) (req : ApplyRequest) (u : University) (g i mg mi : ℚ)
    (hfind : db.universities.find? (fun v => v.id == req.universityId) = some u)
    (hg : parseFloat req.gpa = some g) (hi : parseFloat req.ielts = some i)
    (hmg : u.min_gpa = some mg) (hmi : u.min_ielts = some mi)
    (h1 : mg ≤ g) (h2 : mi ≤ i) :
    applyHandler db noStoreErr req =
      (ApplyResponse.created db.nextAppId,
        { db with
            applications := db.applications ++
              [{ id := db.nextAppId
                 student_name := req.studentName
                 student_email := req.email
                 university_id := req.universityId
                 gpa_submitted := toFixed2 (some g)
                 ielts_submitted := toFixed2 (some i) }]
            nextAppId := db.nextAppId + 1 }) ∧
    (∃ n : ℤ, toFixed2 (some g) = some ((n : ℚ) / 100) ∧ |(n : ℚ) / 100 - g| ≤ 1 / 200) ∧
    (∃ n : ℤ, toFixed2 (some i) = some ((n : ℚ) / 100) ∧ |(n : ℚ) / 100 - i| ≤ 1 / 200) := by
  refine ⟨?_, toFixed2_round g, toFixed2_round i⟩
  simp [applyHandler, noStoreErr, hfind, hg, hi, hmg, hmi, jlt, pgNumToJNum,
    not_lt.2 h1, not_lt.2 h2]

/-- C7, witness: `C7_theorem` applied to the passing submission `reqOK`
(scores `3.5` and `7` against thresholds `3` and `6.5`). -/
theorem C7_witness :
    applyHandler db1 noStoreErr reqOK =
      (ApplyResponse.created db1.nextAppId,
        { db1 with
            applications := db1.applications ++
              [{ id := db1.nextAppId
                 student_name := reqOK.studentName
                 student_email := reqOK.email
                 university_id := reqOK.universityId
                 gpa_submitted := toFixed2 (some (7 / 2))
                 ielts_submitted := toFixed2 (some 7) }]
            nextAppId := db1.nextAppId + 1 }) ∧
    (∃ n : ℤ, toFixed2 (some (7 / 2)) = some ((n : ℚ) / 100) ∧
      |(n : ℚ) / 100 - 7 / 2| ≤ 1 / 200) ∧
    (∃ n : ℤ, toFixed2 (some 7) = some ((n : ℚ) / 100) ∧
      |(n : ℚ) / 100 - 7| ≤ 1 / 200) :=
  C7_theorem db1 reqOK uniAlpha (7 / 2) 7 3 (13 / 2)
    (by simp [db1, uniAlpha, reqOK, List.find?])
    (by
      simp [reqOK, parseFloat, parseFloatChars, splitSign, splitDigits, jsSpace,
        parseExponent, digitsToNat]
      norm_num)
    (by simp [reqOK, parseFloat, parseFloatChars, splitSign, splitDigits, jsSpace,
        parseExponent, digitsToNat])
    rfl rfl (by norm_num) (by norm_num)

/-- C8.  Every store error surfaces through the single `catch` block,
which distinguishes only the driver-reported code: `22003` becomes the 400
"score too high" response and any other code (or a code-less error) the
generic 500, with the store unchanged either way — for an error thrown by
the university lookup as well as for one thrown by the insert. -/
theorem C8_theorem (db : DB) (req : ApplyRequest) (code : Option String) :
    (∀ ie, applyHandler db { selectErr := some code, insertErr := ie } req =
      (applyCatch code, db)) ∧
    (∀ u, db.universities.find? (fun v => v.id == req.universityId) = some u →
      (jlt (parseFloat req.gpa) (pgNumToJNum u.min_gpa) ||
        jlt (parseFloat req.ielts) (pgNumToJNum u.min_ielts)) = false →
      applyHandler db { selectErr := none, insertErr := some code } req =
        (applyCatch code, db)) ∧
    (applyCatch code = ApplyResponse.badRequest "Score value too high for database limits." ↔
      code = some "22003") ∧
    (code ≠ some "22003" →
      applyCatch code = ApplyResponse.serverError "Database error during submission.") := by
  refine ⟨fun ie => rfl, ?_, ?_, ?_⟩
  · intro u hfind hpass
    simp [applyHandler, hfind, hpass]
  · unfold applyCatch; split <;> simp_all
  · intro h; unfold applyCatch; rw [if_neg h]

/-- C8, witness: `C8_theorem` applied to a select error with code `22003`
and to an insert error with the unrelated code `08006`. -/
theorem C8_witness :
    applyHandler db1 { selectErr := some (some "22003"), insertErr := none } reqOK =
      (applyCatch (some "22003"), db1) ∧
    applyHandler db1 { selectErr := none, insertErr := some (some "08006") } reqOK =
      (applyCatch (some "08006"), db1) ∧
    applyCatch (some "08006") =
      ApplyResponse.serverError "Database error during submission." := by
  refine ⟨(C8_theorem db1 reqOK (some "22003")).1 none, ?_, ?_⟩
  · exact (C8_theorem db1 reqOK (some "08006")).2.1 uniAlpha
      (by simp [db1, uniAlpha, reqOK, List.find?])
      (by
        simp [reqOK, uniAlpha, parseFloat, parseFloatChars, splitSign, splitDigits,
          jsSpace, parseExponent, digitsToNat, jlt, pgNumToJNum]
        norm_num)
  · exact (C8_theorem db1 reqOK (some "08006")).2.2.2 (by simp)

/-- C9.  The returned catalog list is sorted by name ascending, and it is
a permutation of the full set of matching rows — no pagination or limit
drops anything. -/
theorem C9_theorem (db : DB) (q : CatalogQuery) (rows : List University)
    (h : getUniversities db q = some rows) :
    rows.Sorted nameLe ∧
    ∃ fee, effectiveMaxFee q.maxFee = some fee ∧
      rows.Perm (db.universities.filter
        (matchesFilters fee (q.country.getD "") (q.degree.getD ""))) := by
  unfold getUniversities at h
  cases hfee : effectiveMaxFee q.maxFee with
  | none => rw [hfee] at h; simp at h
  | some fee =>
      rw [hfee] at h
      simp only [Option.some_inj] at h
      subst h
      exact ⟨List.sorted_insertionSort nameLe _, fee, rfl, List.perm_insertionSort nameLe _⟩

/-- C9, witness: `C9_theorem` applied to the unfiltered query against
`dbUK`. -/
theorem C9_witness :
    ([uniUK] : List University).Sorted nameLe ∧
    ∃ fee, effectiveMaxFee none = some fee ∧
      ([uniUK] : List University).Perm
        (dbUK.universities.filter (matchesFilters fee "" "")) :=
  C9_theorem dbUK { maxFee := none, country := none, degree := none } [uniUK]
    (by
      have hm : matchesFilters 100000 "" "" uniUK = true := by
        simp [matchesFilters, uniUK, ilike_percent_percent]
        norm_num
      simp [getUniversities, effectiveMaxFee, dbUK, List.filter, hm,
        List.insertionSort, List.orderedInsert])

/-- C10, counterexample.  The claim states that one NaN threshold already
makes the rejection branch unreachable.  A NaN threshold disables only its
*own* comparison: against `uniNull` (NULL `min_gpa`, `min_ielts = 6`) the
submission `reqNull` (ielts `5`) is still rejected. -/
theorem C10_counterexample :
    pgNumToJNum uniNull.min_gpa = none ∧
    (applyHandler dbNull noStoreErr reqNull).1 =
      ApplyResponse.rejected (rejectionMessage "Null State University") := by
  constructor
  · rfl
  · simp [applyHandler, noStoreErr, dbNull, uniNull, reqNull, List.find?, parseFloat,
      parseFloatChars, splitSign, splitDigits, jsSpace, parseExponent, digitsToNat,
      jlt, pgNumToJNum]
    norm_num [rejectionMessage]

/-- C10, amended.  When *both* stored thresholds parse to NaN, the
rejection branch is indeed unreachable — the 403 can never be returned and
a successful insert yields 201 — but a single NaN threshold only disables
its own comparison. -/
theorem C10_theorem (db : DB) (beh : StoreBehavior) (req : ApplyRequest) (u : University)
    (hsel : beh.selectErr = none)
    (hfind : db.universities.find? (fun v => v.id == req.universityId) = some u)
    (hmg : pgNumToJNum u.min_gpa = none) (hmi : pgNumToJNum u.min_ielts = none) :
    (∀ m, (applyHandler db beh req).1 ≠ ApplyResponse.rejected m) ∧
    (beh.insertErr = none →
      (applyHandler db beh req).1 = ApplyResponse.created db.nextAppId) := by
  obtain ⟨sel, ins⟩ := beh
  cases hsel
  simp only [applyHandler, hfind, hmg, hmi, jlt_none_right, Bool.or_self]
  constructor
  · intro m
    cases ins with
    | some code => exact applyCatch_ne_rejected code m
    | none => simp
  · rintro rfl
    simp

/-- C10, witness: `C10_theorem` applied to `uniNullBoth`, whose two
thresholds are both NULL, with the low-scoring submission `reqTiny`. -/
theorem C10_witness :
    (applyHandler dbNullBoth noStoreErr reqTiny).1 ≠
      ApplyResponse.rejected (rejectionMessage uniNullBoth.name) ∧
    (applyHandler dbNullBoth noStoreErr reqTiny).1 =
      ApplyResponse.created dbNullBoth.nextAppId := by
  obtain ⟨h1, h2⟩ := C10_theorem dbNullBoth noStoreErr reqTiny uniNullBoth rfl
    (by simp [dbNullBoth, uniNullBoth, reqTiny, List.find?]) rfl rfl
  exact ⟨h1 _, h2 rfl⟩
